import Mathlib

/-!
Verification development for the multi-LLM debate pipeline.

The Python sources (src/app/*.py) are shallowly embedded below:
pure string manipulation becomes Lean functions on `String` (backed by
`List Char`), the mutable `DebateState` TypedDict becomes a record of
`Option` fields (a missing key reads as `none`; a direct `state[k]`
subscript on a missing key, which raises `KeyError` in Python, makes the
embedded node return `none`), and the external LLM / vector-store
backends become explicit function parameters (`Clients`, a query
oracle, a fresh document id).
-/

set_option maxRecDepth 100000

namespace DebateArena

/-! ### Python string primitives

Each of these mirrors the exact Python `str` / `list` operation used by
the sources: `str.strip`, `str.lower`, `str.find`, slicing, `in`,
`str.startswith`, `str.join`, `str.replace` for a single character
needle, and truncation `s[:n]`. -/

/-- Python `str.isspace` character class used by `str.strip()`. -/
def pyWhitespaceChar (c : Char) : Bool :=
  c = ' ' || c = '\t' || c = '\n' || c = '\r' || c = '\x0b' || c = '\x0c'

/-- Drop characters satisfying `p` from both ends of a list. -/
def stripWhile (p : Char → Bool) (l : List Char) : List Char :=
  ((l.dropWhile p).reverse.dropWhile p).reverse

/-- Python `s.strip()` (default whitespace strip). -/
def pyStripWs (s : String) : String :=
  ⟨stripWhile pyWhitespaceChar s.data⟩

/-- Python `s.strip(chars)`. -/
def pyStripChars (chars : List Char) (s : String) : String :=
  ⟨stripWhile (fun c => chars.contains c) s.data⟩

/-- Python `s.lower()` (ASCII-adequate: the sources only lower-case
ASCII labels and judge text). -/
def pyLower (s : String) : String :=
  ⟨s.data.map Char.toLower⟩

/-- Python `s[:n]`. -/
def pyTake (n : Nat) (s : String) : String :=
  ⟨s.data.take n⟩

/-- Python `s[n:]`. -/
def pyDrop (n : Nat) (s : String) : String :=
  ⟨s.data.drop n⟩

/-- First index at which `needle` occurs in the list, if any
(Python `str.find`, with `none` standing for `-1`). -/
def strFind (needle : List Char) : List Char → Option Nat
  | [] => if needle.isPrefixOf ([] : List Char) then some 0 else none
  | c :: t =>
    if needle.isPrefixOf (c :: t) then some 0
    else (strFind needle t).map (· + 1)

/-- Python `hay.find(needle)` as an `Option Nat`. -/
def pyFind (hay needle : String) : Option Nat :=
  strFind needle.data hay.data

/-- Python `needle in hay` (substring test). -/
def pyContains (hay needle : String) : Bool :=
  (pyFind hay needle).isSome

/-- Python `s.startswith(t)`. -/
def pyStartsWith (s t : String) : Bool :=
  t.data.isPrefixOf s.data

/-- Python `sep.join(l)`. -/
def pyJoin (sep : String) : List String → String
  | [] => ""
  | [x] => x
  | x :: y :: t => x ++ sep ++ pyJoin sep (y :: t)

/-- Python `s.replace("\r", "")` (nodes.py line 392). -/
def pyRemoveCR (s : String) : String :=
  ⟨s.data.filter (fun c => c ≠ '\r')⟩

/-- Python `s.replace("\n", "<br>")` (nodes.py `_html_block`). -/
def pyNewlineToBr (s : String) : String :=
  ⟨(s.data.map (fun c => if c = '\n' then ('<' :: 'b' :: 'r' :: '>' :: []) else [c])).flatten⟩

/-! ### Judgment parser (nodes.py, node_judge lines 392-431)

`_extract` is the inner closure of `node_judge`; its captured `text`
and `lower = text.lower()` become explicit arguments computed from
`text`. -/

/-- nodes.py `node_judge._extract`: content after `label + ":"` up to
the next other label, stripped of surrounding space, newline, dash and
colon characters. -/
def _extract (text : String) (label : String) : String :=
  let lower := pyLower text
  match pyFind lower (pyLower label ++ ":") with
  | none => ""
  | some idx =>
    let start := idx + label.length + 1
    let rest0 := pyDrop start text
    let cutAt := fun (rest : String) (other : String) =>
      if pyStartsWith (pyLower other) (pyLower label) then rest
      else
        match pyFind (pyLower rest) other with
        | none => rest
        | some pos => pyTake pos rest
    let rest := cutAt (cutAt (cutAt rest0 "winner:") "reason:") "final:"
    pyStripChars [' ', '\n', '-', ':'] rest

/-- nodes.py lines 413-418: the final answer falls back to the whole
`\r`-normalized, trimmed judge text when the `Final` field extracts
empty. -/
def finalAnswerOf (judge_raw : String) : String :=
  let text := pyRemoveCR judge_raw
  let final_raw := _extract text "final"
  if final_raw = "" then pyStripWs text else final_raw

/-- nodes.py lines 423-431: winner resolution over the lower-cased raw
`Winner` field (`tie` check first, then B-not-A, then A-not-B, else
`Unknown`). -/
def resolveWinner (winner_raw label_a label_b : String) : String :=
  let wl := pyLower winner_raw
  if pyContains wl "tie" then "Tie"
  else if pyContains wl "b" && !(pyContains wl "a") then label_b
  else if pyContains wl "a" && !(pyContains wl "b") then label_a
  else "Unknown"

/-! ### Clients and model routing (clients.py, nodes.py `_call_debater`)

The three backend calls of clients.py are opaque external services; the
embedding takes them as a record of functions. Temperatures are
rationals (they are only passed through, never computed with). -/

/-- One chat message (`{"role": ..., "content": ...}`). -/
structure Message where
  role : String
  content : String
deriving DecidableEq, Repr

/-- The three generation backends of clients.py, as opaque functions
(messages-or-prompt, temperature, max_tokens) → text. -/
structure Clients where
  call_openai_debater : List Message → ℚ → Nat → String
  call_grok_debater : List Message → ℚ → Nat → String
  call_gemini_judge : String → ℚ → Nat → String

/-- A trivial backend used for concrete witnesses: every call returns
the empty string. -/
def constClients : Clients :=
  { call_openai_debater := fun _ _ _ => ""
    call_grok_debater := fun _ _ _ => ""
    call_gemini_judge := fun _ _ _ => "" }

/-- nodes.py `_call_debater`: `'grok'` routes to Grok, every other key
routes to OpenAI. -/
def _call_debater (c : Clients) (model_key : String) (messages : List Message)
    (temperature : ℚ) (max_tokens : Nat) : String :=
  if model_key = "grok" then c.call_grok_debater messages temperature max_tokens
  else c.call_openai_debater messages temperature max_tokens

/-! ### Memory store (memory.py)

`collection.query` is the external Chroma backend: an oracle
`String → Nat → Option (List String)` returning the `documents[0]`
list, with `none` standing for a raised exception. `uuid.uuid4()` is an
externally generated fresh id, passed in as a parameter; the
`Option MemoryRecord` result models the zero-or-one records written by
`collection.add`. -/

/-- The Memory Record written by `store_debate_memory`:
one document with a unique id and a `winner` metadata entry. -/
structure MemoryRecord where
  id : String
  text : String
  winner_meta : String
deriving DecidableEq, Inhabited, Repr

/-- memory.py `store_debate_memory`: strips question and final answer,
no-ops if either is empty, otherwise writes exactly one compact
document under the fresh `doc_id`. -/
def store_debate_memory (doc_id : String) (question final_answer winner : String) :
    Option MemoryRecord :=
  let question := pyStripWs question
  let final_answer := pyStripWs final_answer
  if question = "" || final_answer = "" then none
  else
    some { id := doc_id
           text := "Question: " ++ question ++ "\n" ++ "Winner: " ++ winner
                   ++ "\n" ++ "Final answer:\n" ++ final_answer
           winner_meta := winner }

/-- memory.py `load_relevant_memories`: empty question → `[]`; backend
exception → `[]`; otherwise each returned document truncated to 500
characters. -/
def load_relevant_memories (queryBackend : String → Nat → Option (List String))
    (question : String) (top_k : Nat) : List String :=
  let question := pyStripWs question
  if question = "" then []
  else
    match queryBackend question top_k with
    | none => []
    | some docs0 =>
      if docs0 = [] then []
      else docs0.map (fun doc => pyTake 500 doc)

/-! ### Run-state (state.py `DebateState`)

`TypedDict(total=False)`: every key may be absent, hence every field is
an `Option`. -/

/-- state.py `DebateState`. -/
structure DebateState where
  question : Option String := none
  temperature : Option ℚ := none
  memory_snippets : Option (List String) := none
  opening_a : Option String := none
  opening_b : Option String := none
  rebuttals_a : Option (List String) := none
  rebuttals_b : Option (List String) := none
  winner : Option String := none
  final_answer : Option String := none
  judge_raw : Option String := none
  transcript_sections : Option (List String) := none
  transcript_markdown : Option String := none
  debater_a_model : Option String := none
  debater_b_model : Option String := none
  judge_model : Option String := none
deriving DecidableEq, Inhabited, Repr

/-! ### Transcript helpers (nodes.py lines 27-78) -/

def DEBATER_A_COLOR : String := "#1976d2"

def DEBATER_B_COLOR : String := "#2e7d32"

def JUDGE_COLOR : String := "#424242"

/-- nodes.py `_model_human_name`. -/
def _model_human_name (model_key : String) : String :=
  if model_key = "grok" then "Grok (grok-3-mini)"
  else if model_key = "openai" then "OpenAI (gpt-4.1-mini)"
  else "Unknown model (" ++ model_key ++ ")"

/-- nodes.py `_opening_title`. -/
def _opening_title (model_key : String) : String :=
  _model_human_name model_key ++ " – Opening"

/-- nodes.py `_rebuttal_title`. -/
def _rebuttal_title (model_key : String) (round_num : Nat) : String :=
  _model_human_name model_key ++ " – Rebuttal Round " ++ toString round_num

/-- nodes.py `_html_block`. -/
def _html_block (border_color title body : String) : String :=
  let safe_body := pyNewlineToBr body
  "<div style=\"background-color:#fdfdfd; border-left:4px solid " ++ border_color
    ++ "; padding:10px 12px; border-radius:6px; margin-bottom:10px;"
    ++ " color:#000000 !important; line-height:1.6; font-size:15px;\">"
    ++ "<div style=\"font-weight:650; margin-bottom:6px;\">" ++ title ++ "</div>"
    ++ "<div>" ++ safe_body ++ "</div>"
    ++ "</div>"

/-! ### Memory nodes (nodes.py lines 85-111) -/

/-- nodes.py `node_load_memory`: retrieve up to 3 snippets into
`memory_snippets` and make sure `transcript_sections` exists. -/
def node_load_memory (queryBackend : String → Nat → Option (List String))
    (s : DebateState) : Option DebateState :=
  match s.question with
  | none => none
  | some question =>
    let snippets := load_relevant_memories queryBackend question 3
    let s := { s with memory_snippets := some snippets }
    let s :=
      match s.transcript_sections with
      | none => { s with transcript_sections := some [] }
      | some _ => s
    some s

/-- nodes.py `node_store_memory`: fire-and-forget write of the final
result (the written record, if any, is the value of
`store_debate_memory` and is discarded here; the state is returned
unchanged). -/
def node_store_memory (doc_id : String) (s : DebateState) : Option DebateState :=
  let question := s.question.getD ""
  let final_answer := s.final_answer.getD ""
  let winner := s.winner.getD "Unknown"
  let _written := store_debate_memory doc_id question final_answer winner
  some s

/-! ### Opening stage (nodes.py `node_opening`, lines 194-272) -/

/-- The fixed memory-block header of nodes.py lines 208-210. -/
def memoryHeader : String :=
  "Here are some relevant past debates. You may reuse useful ideas, but do not copy sentences word-for-word:\n\n"

/-- nodes.py lines 206-213: the memory context is empty for no
snippets, otherwise the header plus all snippets joined by the fixed
separator, hard-truncated to 1200 characters after joining. -/
def memoryContext (memory_snippets : List String) : String :=
  if memory_snippets = [] then ""
  else pyTake 1200 (memoryHeader ++ pyJoin "\n\n---\n\n" memory_snippets)

/-- Debater A's fixed opening instruction (nodes.py lines 216-221). -/
def sysABase : String :=
  "You are Debater A. Answer the user\x27s question briefly.\nRules:\n- Max ~120 words.\n- Use at most 3 bullet points OR 2 short paragraphs.\n"

/-- Debater B's fixed opening instruction (nodes.py lines 237-243). -/
def sysBBase : String :=
  "You are Debater B. Answer the user\x27s question briefly.\nRules:\n- Max ~120 words.\n- Use at most 3 bullet points OR 2 short paragraphs.\n- Focus slightly more on practical examples.\n"

/-- nodes.py lines 216-223: Debater A's system text, with the memory
block appended only when the memory context is non-empty. -/
def sysA (memory_snippets : List String) : String :=
  let memory_context := memoryContext memory_snippets
  if memory_context = "" then sysABase
  else sysABase ++ "\nYou also have access to some memory:\n" ++ memory_context

/-- nodes.py lines 237-245: Debater B's system text. -/
def sysB (memory_snippets : List String) : String :=
  let memory_context := memoryContext memory_snippets
  if memory_context = "" then sysBBase
  else sysBBase ++ "\nYou also have access to some memory:\n" ++ memory_context

/-- nodes.py `node_opening`: both debaters answer; openings are set
once, the rebuttal lists are initialized empty, and five transcript
sections are appended. -/
def node_opening (c : Clients) (s : DebateState) : Option DebateState :=
  match s.question, s.temperature, s.debater_a_model, s.debater_b_model with
  | some question, some temperature, some model_a, some model_b =>
    let memory_snippets := s.memory_snippets.getD []
    let messages_a : List Message :=
      [⟨"system", sysA memory_snippets⟩, ⟨"user", "Question: " ++ question⟩]
    let opening_a := _call_debater c model_a messages_a temperature 220
    let messages_b : List Message :=
      [⟨"system", sysB memory_snippets⟩, ⟨"user", "Question: " ++ question⟩]
    let opening_b := _call_debater c model_b messages_b temperature 220
    let sections := s.transcript_sections.getD []
    let sections := sections ++
      ["<h2>🧠 Question</h2>",
       "<p>" ++ question ++ "</p>",
       "<h2>🎙️ Opening Statements</h2>",
       _html_block DEBATER_A_COLOR (_opening_title model_a) opening_a,
       _html_block DEBATER_B_COLOR (_opening_title model_b) opening_b]
    some { s with opening_a := some opening_a
                  opening_b := some opening_b
                  rebuttals_a := some []
                  rebuttals_b := some []
                  transcript_sections := some sections }
  | _, _, _, _ => none

/-! ### Rebuttal stages (nodes.py lines 134-330) -/

/-- nodes.py `_short_rebuttal_for_a`. -/
def _short_rebuttal_for_a (c : Clients) (question other_text : String)
    (temperature : ℚ) (model_key : String) : String :=
  let messages : List Message :=
    [⟨"system", "You are Debater A. Briefly rebut Debater B.\nRules:\n- Max 3 bullet points.\n- Each bullet under 20 words.\n- Be precise, not rude."⟩,
     ⟨"user", "Question: " ++ question ++ "\n\nDebater B\x27s latest answer:\n" ++ other_text⟩]
  _call_debater c model_key messages temperature 120

/-- nodes.py `_short_rebuttal_for_b`. -/
def _short_rebuttal_for_b (c : Clients) (question other_text : String)
    (temperature : ℚ) (model_key : String) : String :=
  let messages : List Message :=
    [⟨"system", "You are Debater B. Briefly rebut Debater A.\nRules:\n- Max 3 bullet points.\n- Each bullet under 20 words.\n- Be precise, not rude."⟩,
     ⟨"user", "Question: " ++ question ++ "\n\nDebater A\x27s latest answer:\n" ++ other_text⟩]
  _call_debater c model_key messages temperature 120

/-- nodes.py `node_rebuttal_round_1`: each debater rebuts the other's
opening; one entry is appended to each rebuttal list and three
transcript sections are appended. -/
def node_rebuttal_round_1 (c : Clients) (s : DebateState) : Option DebateState :=
  match s.question, s.temperature, s.debater_a_model, s.debater_b_model,
        s.opening_a, s.opening_b, s.rebuttals_a, s.rebuttals_b,
        s.transcript_sections with
  | some question, some temp, some model_a, some model_b,
    some opening_a, some opening_b, some ra, some rb, some sections =>
    let rebuttal_a := _short_rebuttal_for_a c question opening_b temp model_a
    let rebuttal_b := _short_rebuttal_for_b c question opening_a temp model_b
    let sections := sections ++
      ["<h2>🔁 Rebuttal Round 1</h2>",
       _html_block DEBATER_A_COLOR (_rebuttal_title model_a 1) rebuttal_a,
       _html_block DEBATER_B_COLOR (_rebuttal_title model_b 1) rebuttal_b]
    some { s with rebuttals_a := some (ra ++ [rebuttal_a])
                  rebuttals_b := some (rb ++ [rebuttal_b])
                  transcript_sections := some sections }
  | _, _, _, _, _, _, _, _, _ => none

/-- nodes.py `node_rebuttal_round_2`: each debater rebuts the other's
latest rebuttal (`rebuttals[-1]`, a `KeyError`/`IndexError` when absent
or empty); one entry is appended to each rebuttal list. -/
def node_rebuttal_round_2 (c : Clients) (s : DebateState) : Option DebateState :=
  match s.question, s.temperature, s.debater_a_model, s.debater_b_model,
        s.rebuttals_a, s.rebuttals_b, s.transcript_sections with
  | some question, some temp, some model_a, some model_b,
    some ra, some rb, some sections =>
    match ra.getLast?, rb.getLast? with
    | some latest_a, some latest_b =>
      let rebuttal_a2 := _short_rebuttal_for_a c question latest_b temp model_a
      let rebuttal_b2 := _short_rebuttal_for_b c question latest_a temp model_b
      let sections := sections ++
        ["<h2>🔁 Rebuttal Round 2</h2>",
         _html_block DEBATER_A_COLOR (_rebuttal_title model_a 2) rebuttal_a2,
         _html_block DEBATER_B_COLOR (_rebuttal_title model_b 2) rebuttal_b2]
      some { s with rebuttals_a := some (ra ++ [rebuttal_a2])
                    rebuttals_b := some (rb ++ [rebuttal_b2])
                    transcript_sections := some sections }
    | _, _ => none
  | _, _, _, _, _, _, _ => none

/-! ### Judgment stage (nodes.py `node_judge`, lines 333-466) -/

/-- The fixed judge instruction block (nodes.py lines 351-361). -/
def judgeInstructions : String :=
  "You are the Judge of a debate between two AI debaters (A and B).\nYour job:\n1) Decide who argued better overall (A, B, or tie).\n2) Briefly explain why.\n3) Give a final concise answer for the user.\n\nOutput format (plain text, short):\nWinner: A / B / tie\nReason: <1–3 short sentences>\nFinal: <short final answer, max ~80 words>\n"

/-- The debate context quad given to the judge (nodes.py lines 363-369). -/
def debateContext (question opening_a opening_b latest_a latest_b : String) : String :=
  "Question:\n" ++ question ++ "\n\n"
    ++ "Debater A (Opening):\n" ++ opening_a ++ "\n\n"
    ++ "Debater B (Opening):\n" ++ opening_b ++ "\n\n"
    ++ "Debater A (Latest Rebuttal):\n" ++ latest_a ++ "\n\n"
    ++ "Debater B (Latest Rebuttal):\n" ++ latest_b ++ "\n"

/-- The combined judge prompt (nodes.py lines 380 and 386). -/
def judgePrompt (question opening_a opening_b latest_a latest_b : String) : String :=
  judgeInstructions ++ "\n\n" ++ debateContext question opening_a opening_b latest_a latest_b

/-- nodes.py `node_judge`: judge model routing (`'openai'` → OpenAI
chat call, anything else → Gemini single-prompt call, both at fixed
temperature 0.3), then the Winner/Reason/Final parse, winner mapping to
the human-readable label of the winning side's model key, and the judge
transcript block. -/
def node_judge (c : Clients) (s : DebateState) : Option DebateState :=
  match s.question, s.opening_a, s.opening_b, s.rebuttals_a, s.rebuttals_b,
        s.debater_a_model, s.debater_b_model, s.judge_model,
        s.transcript_sections with
  | some question, some opening_a, some opening_b, some ra, some rb,
    some model_a, some model_b, some judge_model, some sections =>
    match ra.getLast?, rb.getLast? with
    | some latest_a, some latest_b =>
      let prompt := judgePrompt question opening_a opening_b latest_a latest_b
      let judge_raw :=
        if judge_model = "openai" then
          c.call_openai_debater
            [⟨"system", "You are the Judge. Follow the user\x27s instructions and respond in the requested format."⟩,
             ⟨"user", prompt⟩] (3/10) 220
        else c.call_gemini_judge prompt (3/10) 220
      let judge_title :=
        if judge_model = "openai" then "Judge – OpenAI (gpt-4.1-mini)"
        else "Judge – Gemini (gemini-2.0-flash-lite)"
      let text := pyRemoveCR judge_raw
      let winner_raw := _extract text "winner"
      let reason_raw := _extract text "reason"
      let final_raw := finalAnswerOf judge_raw
      let label_a := _model_human_name model_a
      let label_b := _model_human_name model_b
      let winner_display := resolveWinner winner_raw label_a label_b
      let winner_line :=
        "<p style=\"margin:4px 0;\"><span style=\"color:#1b5e20; font-weight:600;\">Winner:</span> "
          ++ (if winner_display ≠ "" then winner_display
              else if winner_raw ≠ "" then winner_raw else "Unknown")
          ++ "</p>"
      let reason_line :=
        if reason_raw ≠ "" then
          "<p style=\"margin:4px 0;\"><span style=\"color:#0d47a1; font-weight:600;\">Reason:</span> "
            ++ reason_raw ++ "</p>"
        else ""
      let final_line :=
        "<p style=\"margin:4px 0;\"><span style=\"color:#e65100; font-weight:600;\">Final:</span> "
          ++ final_raw ++ "</p>"
      let judge_body := winner_line ++ reason_line ++ final_line
      let judge_block := _html_block JUDGE_COLOR judge_title judge_body
      let sections := sections ++ ["<h2>⚖️ Judge\x27s Summary</h2>", judge_block]
      some { s with winner := some winner_display
                    final_answer := some final_raw
                    judge_raw := some judge_raw
                    transcript_sections := some sections }
    | _, _ => none
  | _, _, _, _, _, _, _, _, _ => none

/-- nodes.py `node_assemble`: join all transcript sections with a blank
line into `transcript_markdown`. -/
def node_assemble (s : DebateState) : Option DebateState :=
  some { s with transcript_markdown := some (pyJoin "\n\n" (s.transcript_sections.getD [])) }

/-! ### Batch runner (graph_runner.py)

The compiled LangGraph is the fixed seven-stage chain; the embedding
additionally records which stages were entered (all external calls
happen inside stages, so an empty trace means no stage ran and no
external service was called). -/

/-- The seven pipeline stages, in graph order. -/
inductive Stage where
  | load_memory
  | opening
  | rebuttal1
  | rebuttal2
  | judge
  | store_memory
  | assemble
deriving DecidableEq, Repr

/-- graph_runner.py `compiled_graph.invoke`: run the stage chain,
stopping at the first failing stage; also return the list of stages
entered. -/
def compiled_graph_invoke (c : Clients) (queryBackend : String → Nat → Option (List String))
    (doc_id : String) (s : DebateState) : Option DebateState × List Stage :=
  match node_load_memory queryBackend s with
  | none => (none, [.load_memory])
  | some s1 =>
    match node_opening c s1 with
    | none => (none, [.load_memory, .opening])
    | some s2 =>
      match node_rebuttal_round_1 c s2 with
      | none => (none, [.load_memory, .opening, .rebuttal1])
      | some s3 =>
        match node_rebuttal_round_2 c s3 with
        | none => (none, [.load_memory, .opening, .rebuttal1, .rebuttal2])
        | some s4 =>
          match node_judge c s4 with
          | none => (none, [.load_memory, .opening, .rebuttal1, .rebuttal2, .judge])
          | some s5 =>
            match node_store_memory doc_id s5 with
            | none => (none, [.load_memory, .opening, .rebuttal1, .rebuttal2, .judge, .store_memory])
            | some s6 =>
              match node_assemble s6 with
              | none => (none, [.load_memory, .opening, .rebuttal1, .rebuttal2, .judge, .store_memory, .assemble])
              | some s7 =>
                (some s7, [.load_memory, .opening, .rebuttal1, .rebuttal2, .judge, .store_memory, .assemble])

/-- graph_runner.py `run_debate`: strip the question; an empty question
returns the placeholder and an empty transcript immediately (trace `[]`:
no stage entered, no external call); otherwise invoke the graph and
pretty-print the result. `none` as first component models a propagated
exception. -/
def run_debate (c : Clients) (queryBackend : String → Nat → Option (List String))
    (doc_id : String) (question : String) (creativity : ℚ) :
    Option (String × String) × List Stage :=
  let question := pyStripWs question
  if question = "" then (some ("Please enter a question or topic.", ""), [])
  else
    let initial_state : DebateState :=
      { question := some question
        temperature := some creativity
        transcript_sections := some []
        memory_snippets := some [] }
    match compiled_graph_invoke c queryBackend doc_id initial_state with
    | (none, trace) => (none, trace)
    | (some result, trace) =>
      let winner := result.winner.getD "Unknown"
      let final_answer := pyStripWs (result.final_answer.getD "")
      let transcript_md := result.transcript_markdown.getD ""
      (some ("### 🏁 Final Answer (Winner: " ++ winner ++ ")\n\n" ++ final_answer, transcript_md),
       trace)

/-! ### Live UI runner (ui.py `_render_outputs`, `debate_live`)

`debate_live` is a Python generator; the embedding returns the finite
list of snapshots it yields. A failing node (a raised exception inside
the generator) ends the list at the snapshots already yielded. -/

/-- The placeholder shown in the final-answer slot before the judge has
run (ui.py line 42). -/
def progressMsg : String :=
  "🧠 Debate in progress... please wait for the final answer."

/-- ui.py `_render_outputs`: (final-answer markdown, transcript HTML). -/
def _render_outputs (s : DebateState) (show_final : Bool) : String × String :=
  let transcript_html := pyJoin "\n\n" (s.transcript_sections.getD [])
  if show_final then
    let winner := s.winner.getD "Unknown"
    let final_answer := pyStripWs (s.final_answer.getD "")
    let final_md :=
      if final_answer ≠ "" then
        "### 🏁 Final Answer (Winner: " ++ winner ++ ")\n\n" ++ final_answer
      else "Final answer not available."
    (final_md, transcript_html)
  else (progressMsg, transcript_html)

/-- ui.py `debate_live`: the streaming runner. The guard yields a single
placeholder snapshot for an empty/whitespace question; otherwise one
snapshot is yielded after memory load, opening, each rebuttal round and
the judge, and one final snapshot after the combined store-memory and
assemble steps. -/
def debate_live (c : Clients) (queryBackend : String → Nat → Option (List String))
    (doc_id : String) (question : String) (creativity : ℚ)
    (debater_a_model debater_b_model judge_model : String) :
    List (String × String) :=
  let question := pyStripWs question
  if question = "" then [("Please enter a question or topic.", "")]
  else
    let state : DebateState :=
      { question := some question
        temperature := some creativity
        transcript_sections := some []
        memory_snippets := some []
        debater_a_model := some debater_a_model
        debater_b_model := some debater_b_model
        judge_model := some judge_model }
    match node_load_memory queryBackend state with
    | none => []
    | some s1 =>
      let y1 := _render_outputs s1 false
      match node_opening c s1 with
      | none => [y1]
      | some s2 =>
        let y2 := _render_outputs s2 false
        match node_rebuttal_round_1 c s2 with
        | none => [y1, y2]
        | some s3 =>
          let y3 := _render_outputs s3 false
          match node_rebuttal_round_2 c s3 with
          | none => [y1, y2, y3]
          | some s4 =>
            let y4 := _render_outputs s4 false
            match node_judge c s4 with
            | none => [y1, y2, y3, y4]
            | some s5 =>
              let y5 := _render_outputs s5 true
              match node_store_memory doc_id s5 with
              | none => [y1, y2, y3, y4, y5]
              | some s6 =>
                match node_assemble s6 with
                | none => [y1, y2, y3, y4, y5]
                | some s7 => [y1, y2, y3, y4, y5, _render_outputs s7 true]

/-! ### Helper lemmas -/

theorem str_data_append (a b : String) : (a ++ b).data = a.data ++ b.data := by
  cases a
  cases b
  rfl

theorem list_getLast_one {α : Type} (a : α) : ([a] : List α).getLast? = some a := rfl

theorem head_append_of_head {α : Type} (a : List α) (x : α) (h : a.head? = some x)
    (b : List α) : (a ++ b).head? = some x := by
  cases a with
  | nil => simp at h
  | cons y t => simpa using h

/-- The first snapshot component before the judge has run is always the
fixed in-progress placeholder. -/
theorem render_not_final_fst (s : DebateState) :
    (_render_outputs s false).1 = progressMsg := rfl

/-- A snapshot rendered with `show_final = true` never carries the
in-progress placeholder in its final-answer slot. -/
theorem render_final_fst_ne (s : DebateState) :
    (_render_outputs s true).1 ≠ progressMsg := by
  unfold _render_outputs
  by_cases hf : pyStripWs (s.final_answer.getD "") = ""
  · simpa [hf] using by decide
  · simp only [hf, if_true, ite_not, if_false, ne_eq]
    intro heq
    have hdata := congrArg String.data heq
    simp only [str_data_append] at hdata
    have h1 : ("### 🏁 Final Answer (Winner: ").data.head? = some '#' := by decide
    have h2 := head_append_of_head _ _ h1 (s.winner.getD "Unknown").data
    have h3 := head_append_of_head _ _ h2 (")\n\n").data
    have h4 := head_append_of_head _ _ h3 (pyStripWs (s.final_answer.getD "")).data
    have hh := congrArg List.head? hdata
    rw [h4] at hh
    have h5 : progressMsg.data.head? = some '🧠' := by decide
    rw [h5] at hh
    simp at hh

/-! ### Claims -/

/-- C1: for every empty/whitespace question, the batch entry point
`run_debate` returns the placeholder result immediately with an empty
transcript and an empty stage trace (no stage executed, hence no
external call), and the streaming entry point `debate_live` yields only
the placeholder snapshot. -/
theorem C1_empty_question_short_circuit (c : Clients)
    (mq : String → Nat → Option (List String)) (doc_id q : String) (t : ℚ)
    (ma mb mj : String) (h : pyStripWs q = "") :
    run_debate c mq doc_id q t = (some ("Please enter a question or topic.", ""), []) ∧
    debate_live c mq doc_id q t ma mb mj = [("Please enter a question or topic.", "")] := by
  constructor
  · simp [run_debate, h]
  · simp [debate_live, h]

theorem C1_witness :
    run_debate constClients (fun _ _ => none) "id" "   " 1 =
      (some ("Please enter a question or topic.", ""), []) :=
  (C1_empty_question_short_circuit constClients (fun _ _ => none) "id" "   " 1
    "openai" "grok" "gemini" (by decide)).1

/-- C3: on the judge raw text `"Winner: B\nReason: clearer examples\nFinal: Use X."`,
`node_judge` stores as winner the human-readable display name bound to
debater B's model key for the run, stores `"Use X."` as the final
answer, and the parser extracts `"clearer examples"` as the reason. -/
theorem C3_parse_canonical_example (q oa ob ra rb ma mb : String) (t : ℚ) :
    (node_judge
      { call_openai_debater := fun _ _ _ => "Winner: B\nReason: clearer examples\nFinal: Use X."
        call_grok_debater := fun _ _ _ => "Winner: B\nReason: clearer examples\nFinal: Use X."
        call_gemini_judge := fun _ _ _ => "Winner: B\nReason: clearer examples\nFinal: Use X." }
      { question := some q, temperature := some t, opening_a := some oa, opening_b := some ob
        rebuttals_a := some [ra], rebuttals_b := some [rb], transcript_sections := some []
        debater_a_model := some ma, debater_b_model := some mb
        judge_model := some "gemini" }).map (fun s => (s.winner, s.final_answer)) =
      some (some (_model_human_name mb), some "Use X.") ∧
    _extract "Winner: B\nReason: clearer examples\nFinal: Use X." "reason" = "clearer examples" := by
  have hw : _extract (pyRemoveCR "Winner: B\nReason: clearer examples\nFinal: Use X.") "winner"
      = "B" := by decide
  have hf : finalAnswerOf "Winner: B\nReason: clearer examples\nFinal: Use X." = "Use X." := by
    decide
  have hres : ∀ la lb : String, resolveWinner "B" la lb = lb := by
    intro la lb
    have h1 : pyContains (pyLower "B") "tie" = false := by decide
    have h2 : pyContains (pyLower "B") "b" = true := by decide
    have h3 : pyContains (pyLower "B") "a" = false := by decide
    simp [resolveWinner, h1, h2, h3]
  refine ⟨?_, by decide⟩
  simp [node_judge, list_getLast_one, hw, hf, hres]

/-- C4: winner resolution on the lower-cased extracted Winner field:
a field containing `"tie"` resolves to Tie before any side detection;
otherwise B's token without A's resolves to side B's label, A's token
without B's to side A's label, and mentions of both sides or neither
resolve to Unknown. -/
theorem C4_winner_resolution (w la lb : String) :
    (pyContains (pyLower w) "tie" = true → resolveWinner w la lb = "Tie") ∧
    (pyContains (pyLower w) "tie" = false → pyContains (pyLower w) "b" = true →
      pyContains (pyLower w) "a" = false → resolveWinner w la lb = lb) ∧
    (pyContains (pyLower w) "tie" = false → pyContains (pyLower w) "a" = true →
      pyContains (pyLower w) "b" = false → resolveWinner w la lb = la) ∧
    (pyContains (pyLower w) "tie" = false →
      pyContains (pyLower w) "a" = pyContains (pyLower w) "b" →
      resolveWinner w la lb = "Unknown") := by
  unfold resolveWinner
  refine ⟨fun h => by simp [h], fun h1 h2 h3 => by simp [h1, h2, h3],
    fun h1 h2 h3 => by simp [h1, h2, h3], fun h1 h2 => ?_⟩
  cases h3 : pyContains (pyLower w) "b" with
  | false => simp [h1, h2, h3, h2.trans h3]
  | true => simp [h1, h2, h3, h2.trans h3]

theorem C4_witness : resolveWinner "tie" "x" "y" = "Tie" :=
  (C4_winner_resolution "tie" "x" "y").1 (by decide)

/-- C5 counterexample: the claim says the fallback final answer equals
the entire raw text trimmed, but the code first deletes carriage
returns; on the label-free raw text `"a\rb"` the produced final answer
is `"ab"` while the trimmed raw text is `"a\rb"`. -/
theorem C5_counterexample : finalAnswerOf "a\rb" ≠ pyStripWs "a\rb" := by decide

/-- C5 (amended): for every judge raw text whose `Final` field extracts
empty, the parsed final answer is the entire raw text with carriage
returns removed and then trimmed (no further information loss), and
when the `Winner` label is absent the winner resolves to Unknown. -/
theorem C5_final_fallback (raw la lb : String)
    (hfin : _extract (pyRemoveCR raw) "final" = "") :
    finalAnswerOf raw = pyStripWs (pyRemoveCR raw) ∧
    (pyFind (pyLower (pyRemoveCR raw)) "winner:" = none →
      resolveWinner (_extract (pyRemoveCR raw) "winner") la lb = "Unknown") := by
  constructor
  · simp [finalAnswerOf, hfin]
  · intro hw
    have hlbl : pyLower "winner" ++ ":" = "winner:" := by decide
    have hwr : _extract (pyRemoveCR raw) "winner" = "" := by
      simp [_extract, hlbl, hw]
    rw [hwr]
    have h1 : pyContains (pyLower "") "tie" = false := by decide
    have h2 : pyContains (pyLower "") "b" = false := by decide
    have h3 : pyContains (pyLower "") "a" = false := by decide
    simp [resolveWinner, h1, h2, h3]

theorem C5_witness : finalAnswerOf "hello" = pyStripWs (pyRemoveCR "hello") :=
  (C5_final_fallback "hello" "x" "y" (by decide)).1

/-- The rebuttal-list pair of a (possibly failed) stage result, `none`
when the stage failed or a list is absent. -/
def rebLists (o : Option DebateState) : Option (List String × List String) :=
  o.bind fun s =>
    match s.rebuttals_a, s.rebuttals_b with
    | some a, some b => some (a, b)
    | _, _ => none

/-- C2: whenever the opening stage completes, both rebuttal lists start
empty, each rebuttal stage succeeds and appends exactly one entry to
each list (the round-1 lists are preserved as the first entries of the
round-2 lists, so nothing is removed or replaced), the lists have equal
length after each rebuttal stage, and both have length 2 after both
stages. -/
theorem C2_rebuttal_invariant (c : Clients) (s0 s1 : DebateState)
    (h1 : node_opening c s0 = some s1) :
    s1.rebuttals_a = some [] ∧ s1.rebuttals_b = some [] ∧
    (rebLists (node_rebuttal_round_1 c s1)).map (fun p => (p.1.length, p.2.length)) =
      some (1, 1) ∧
    (rebLists ((node_rebuttal_round_1 c s1).bind (node_rebuttal_round_2 c))).map
      (fun p => (p.1.length, p.2.length)) = some (2, 2) ∧
    (rebLists ((node_rebuttal_round_1 c s1).bind (node_rebuttal_round_2 c))).map
      (fun p => (p.1.take 1, p.2.take 1)) = rebLists (node_rebuttal_round_1 c s1) := by
  cases hq : s0.question with
  | none => simp [node_opening, hq] at h1
  | some q =>
  cases ht : s0.temperature with
  | none => simp [node_opening, hq, ht] at h1
  | some t =>
  cases ha : s0.debater_a_model with
  | none => simp [node_opening, hq, ht, ha] at h1
  | some model_a =>
  cases hb : s0.debater_b_model with
  | none => simp [node_opening, hq, ht, ha, hb] at h1
  | some model_b =>
  simp only [node_opening, hq, ht, ha, hb, Option.some.injEq] at h1
  subst h1
  simp [node_rebuttal_round_1, node_rebuttal_round_2, rebLists, hq, ht, ha, hb,
    list_getLast_one]

def c2s0 : DebateState :=
  { question := some "q", temperature := some 1, debater_a_model := some "openai"
    debater_b_model := some "grok", memory_snippets := some []
    transcript_sections := some [] }

def c2s1 : DebateState := (node_opening constClients c2s0).getD default

theorem C2_witness :
    (rebLists ((node_rebuttal_round_1 constClients c2s1).bind
      (node_rebuttal_round_2 constClients))).map (fun p => (p.1.length, p.2.length)) =
      some (2, 2) :=
  (C2_rebuttal_invariant constClients c2s0 c2s1 (by decide)).2.2.2.1

/-- C6 counterexample: on the non-empty question `"q"` (with a stub
backend) the streaming runner yields six snapshots, not seven — the
MemoryStore and Assemble steps share one snapshot. -/
theorem C6_counterexample :
    ¬ (debate_live constClients (fun _ _ => none) "id" "q" 1 "openai" "grok"
        "gemini").length = 7 := by decide

/-- C6 (amended): for every non-empty question the streaming variant
yields exactly six snapshots — one after each of MemoryLoad, Opening,
Rebuttal 1, Rebuttal 2 and Judgment, and a single snapshot after the
combined MemoryStore and Assemble steps — terminating there; the first
four snapshots carry the in-progress placeholder in the final-answer
slot and only the last two are rendered with the final answer/winner. -/
theorem C6_streaming_snapshots (c : Clients)
    (mq : String → Nat → Option (List String)) (doc_id q : String) (t : ℚ)
    (ma mb mj : String) (h : pyStripWs q ≠ "") :
    (debate_live c mq doc_id q t ma mb mj).length = 6 ∧
    ((debate_live c mq doc_id q t ma mb mj).map Prod.fst).take 4 =
      [progressMsg, progressMsg, progressMsg, progressMsg] ∧
    ∀ p ∈ (debate_live c mq doc_id q t ma mb mj).drop 4, p.1 ≠ progressMsg := by
  simp only [debate_live, node_load_memory, node_opening, node_rebuttal_round_1,
    node_rebuttal_round_2, node_judge, node_store_memory, node_assemble,
    h, if_false, ite_false, List.nil_append, List.singleton_append,
    List.cons_append, list_getLast_one, List.getLast?_cons_cons]
  refine ⟨by simp, by simp [render_not_final_fst], ?_⟩
  simp only [List.drop_succ_cons, List.drop_zero, List.mem_cons,
    List.mem_singleton, List.not_mem_nil, or_false]
  rintro p (rfl | rfl)
  · exact render_final_fst_ne _
  · exact render_final_fst_ne _

theorem C6_witness :
    (debate_live constClients (fun _ _ => none) "id" "q" 1 "openai" "grok"
      "gemini").length = 6 :=
  (C6_streaming_snapshots constClients (fun _ _ => none) "id" "q" 1 "openai" "grok"
    "gemini" (by decide)).1

/-- A non-empty snippet list always produces a non-empty memory
context: the truncation bound 1200 is positive and the fixed header is
non-empty. -/
theorem memoryContext_ne_empty (snips : List String) (h : snips ≠ []) :
    memoryContext snips ≠ "" := by
  unfold memoryContext
  simp only [h, if_false, ite_false]
  intro heq
  have hdata := congrArg String.data heq
  have hemp : ("" : String).data = [] := rfl
  simp only [pyTake, str_data_append, hemp] at hdata
  have hlen := congrArg List.length hdata
  rw [List.length_take, List.length_append, List.length_nil] at hlen
  have hh : 0 < memoryHeader.data.length := by decide
  omega

/-- C7: the opening instructions include a memory block iff the
retrieved snippet list is non-empty, and the block is the fixed header
plus all snippets joined with the fixed separator, hard-truncated to
1200 characters after joining (not per snippet). -/
theorem C7_memory_block (snips : List String) :
    (snips = [] → memoryContext snips = "" ∧ sysA snips = sysABase ∧
      sysB snips = sysBBase) ∧
    (snips ≠ [] →
      memoryContext snips = pyTake 1200 (memoryHeader ++ pyJoin "\n\n---\n\n" snips) ∧
      sysA snips = sysABase ++ "\nYou also have access to some memory:\n"
        ++ memoryContext snips ∧
      sysB snips = sysBBase ++ "\nYou also have access to some memory:\n"
        ++ memoryContext snips) := by
  constructor
  · intro h
    simp [memoryContext, sysA, sysB, h]
  · intro h
    have hne := memoryContext_ne_empty snips h
    refine ⟨by simp [memoryContext, h], ?_, ?_⟩
    · simp [sysA, hne]
    · simp [sysB, hne]

theorem C7_witness :
    sysA ["m"] = sysABase ++ "\nYou also have access to some memory:\n"
      ++ memoryContext ["m"] :=
  ((C7_memory_block ["m"]).2 (by decide)).2.1

/-- C8: retrieval returns at most `k` snippets whenever the backend
honours its `n_results` bound, every returned snippet is truncated to
at most 500 characters before storage, and a backend failure (a raised
exception, modelled as `none`) degrades to the empty sequence instead
of propagating. -/
theorem C8_retrieve_bounds (backend : String → Nat → Option (List String))
    (q : String) (k : Nat)
    (hb : ∀ l, backend (pyStripWs q) k = some l → l.length ≤ k) :
    (load_relevant_memories backend q k).length ≤ k ∧
    (∀ snip ∈ load_relevant_memories backend q k, snip.data.length ≤ 500) ∧
    (backend (pyStripWs q) k = none → load_relevant_memories backend q k = []) := by
  unfold load_relevant_memories
  by_cases hq : pyStripWs q = ""
  · simp [hq]
  · simp only [hq, if_false, ite_false]
    cases hbk : backend (pyStripWs q) k with
    | none => simp
    | some l =>
      by_cases hl : l = []
      · simp [hl]
      · simp only [hl, if_false, ite_false, ne_eq, not_false_iff]
        refine ⟨?_, ?_, by intro hcon; cases hcon⟩
        · simpa using hb l hbk
        · intro snip hs
          obtain ⟨d, _, rfl⟩ := List.mem_map.mp hs
          simp [pyTake, List.length_take]

theorem C8_witness :
    (load_relevant_memories (fun _ _ => some ["hello world"]) "q" 3).length ≤ 3 :=
  (C8_retrieve_bounds (fun _ _ => some ["hello world"]) "q" 3
    (by intro l hl; injection hl with hl2; subst hl2; decide)).1

/-- C9: the memory write is a no-op exactly when the question or the
final answer is empty after trimming; otherwise exactly one record is
written and it carries the externally generated fresh unique id. -/
theorem C9_store_noop_or_one (doc_id q fa w : String) :
    (store_debate_memory doc_id q fa w = none ↔
      (pyStripWs q = "" ∨ pyStripWs fa = "")) ∧
    (∀ r, store_debate_memory doc_id q fa w = some r → r.id = doc_id) := by
  unfold store_debate_memory
  by_cases h1 : pyStripWs q = "" <;> by_cases h2 : pyStripWs fa = "" <;>
    simp [h1, h2]

theorem C9_witness :
    ((store_debate_memory "id" "q" "a" "W").getD default).id = "id" :=
  (C9_store_noop_or_one "id" "q" "a" "W").2 _ (by decide)

/-- C10: model routing is total and falls back silently — every debater
model key other than `"grok"` dispatches to the OpenAI backend (and
`"grok"` to Grok), and every judge model key other than `"openai"`
(including keys other than `"gemini"`) dispatches the judge call to the
Gemini backend with the combined prompt at fixed temperature 0.3. -/
theorem C10_routing_total (c : Clients) (k jm : String) (m : List Message)
    (t temp : ℚ) (n : Nat) (q oa ob ra rb ma mb : String)
    (hk : k ≠ "grok") (hj : jm ≠ "openai") :
    _call_debater c k m t n = c.call_openai_debater m t n ∧
    _call_debater c "grok" m t n = c.call_grok_debater m t n ∧
    (node_judge c
      { question := some q, temperature := some temp, opening_a := some oa
        opening_b := some ob, rebuttals_a := some [ra], rebuttals_b := some [rb]
        transcript_sections := some [], debater_a_model := some ma
        debater_b_model := some mb, judge_model := some jm }).map
      DebateState.judge_raw =
      some (some (c.call_gemini_judge (judgePrompt q oa ob ra rb) (3/10) 220)) := by
  refine ⟨by simp [_call_debater, hk], by simp [_call_debater], ?_⟩
  simp [node_judge, hj, list_getLast_one]

theorem C10_witness :
    _call_debater constClients "mystery-model" [] 1 7 =
      constClients.call_openai_debater [] 1 7 :=
  (C10_routing_total constClients "mystery-model" "gemini" [] 1 1 7
    "q" "oa" "ob" "ra" "rb" "openai" "grok" (by decide) (by decide)).1

end DebateArena
